import Mathlib

/-!
Shallow embedding of the farore cartridge emulator (src/mbc.rs, src/cart.rs,
src/cartridge.rs) and proofs about it.

Conventions of the embedding:
* Machine integers (u8 / u16 / usize) are modelled as Nat.  Wherever the Rust
  code relies on wrapping arithmetic (std::num::Wrapping) the reduction
  (% 256 resp. % 65536) is written explicitly.  Byte values coming out of a
  Vec of u8 are below 256 by their Rust type; where a computation depends on
  that (checksum accumulation) the embedding masks with % 256.
* Fallible or aborting Rust control flow is made explicit in an Except:
  a panic, an unreachable arm, an unimplemented arm, an out-of-bounds index
  or slice, and a value matched by no arm of a non-exhaustive match (which
  rustc rejects at compile time) each map to a distinct Crash constructor,
  so theorems can distinguish a deliberate signal from an abort.
* Fixed-size Rust arrays that are only ever indexed are modelled as total
  functions Nat -> Nat; their fixed extent is noted where it matters.
-/

namespace Farore

/-- The distinct ways an operation of this program can fail to return
normally.  The first group are aborts (Rust panics); the title constructor
models the one recoverable error value (a Utf8Error boxed into the Result
of cart.rs GameboyProgramMeta::new); the last three classify the aborting
macro markers and match fall-through in src/mbc.rs. -/
inductive Crash where
  /-- Index or slice beyond the end of the byte buffer: a Rust index panic. -/
  | outOfBounds : Crash
  /-- The title bytes before the first null are not valid UTF-8: the
  recoverable error returned through the Result of cart.rs (bufstr). -/
  | titleNotUtf8 : Crash
  /-- mbc.rs line 266: explicit writing-while-disabled message. -/
  | ramWriteDisabled : Crash
  /-- Ram2kb guard: address beyond the RAM bank extent. -/
  | ramOutOfRange : Crash
  /-- Ram2kb guard: nonzero bank requested from bankless RAM. -/
  | ramWrongBank : Crash
  /-- An arm written with the unreachable marker macro. -/
  | unreachableArm : Crash
  /-- An arm written with the unimplemented marker macro: the explicit
  unhandled-region extension point of GBMemory. -/
  | unhandledRegion : Crash
  /-- A scrutinee value no arm of a non-exhaustive match covers.  rustc
  rejects such a match at compile time; dynamically no outcome is defined. -/
  | noMatchingArm : Crash
deriving DecidableEq

/-- 2 KiB external cartridge RAM (struct Ram2kb of src/mbc.rs): a 0x800-byte
array, modelled as a total function whose meaningful domain is 0..0x800. -/
structure Ram2kb where
  memory : Nat → Nat

/-- Ram2kb::read.  The source guard uses a strict greater-than, so the
off-by-one address 0x800 passes the guard and the subsequent array index
aborts; the embedding keeps both cases apart. -/
def Ram2kb.read (r : Ram2kb) (bank : Nat) (address : Nat) : Except Crash Nat :=
  if address > 0x800 then .error .ramOutOfRange
  else if bank ≠ 0 then .error .ramWrongBank
  else if address < 0x800 then .ok (r.memory address)
  else .error .outOfBounds

/-- Ram2kb::write, with the same guard structure as Ram2kb::read. -/
def Ram2kb.write (r : Ram2kb) (bank : Nat) (address : Nat) (value : Nat) :
    Except Crash Ram2kb :=
  if address > 0x800 then .error .ramOutOfRange
  else if bank ≠ 0 then .error .ramWrongBank
  else if address < 0x800 then
    .ok { r with memory := fun j => if j = address then value else r.memory j }
  else .error .outOfBounds

/-- struct MBC1 of src/mbc.rs.  rom_banks is the fixed [[u8; 0x4000]; 0x80]
array (128 banks of 16 KiB), modelled as a curried total function
bank -> offset -> byte whose meaningful domain is 0..0x80 x 0..0x4000.
ram_bank is the boxed Ram trait object; Ram2kb is the only complete Ram
implementation in the source, so it stands in for the trait object here. -/
structure MBC1 where
  rom_banks : Nat → Nat → Nat
  rom_bank_number : Nat
  ram_bank : Ram2kb
  ram_bank_number : Nat
  ram_write_enabled : Bool
  is_rom_banking_mode : Bool

/-- MBC1::new: rom_banks defaults to all zero bytes (Default::default()),
the selector starts at bank 1, RAM bank 0, RAM writes disabled, ROM banking
mode. -/
def MBC1.new (ram : Ram2kb) : MBC1 where
  rom_banks := fun _ _ => 0
  rom_bank_number := 1
  ram_bank := ram
  ram_bank_number := 0
  ram_write_enabled := false
  is_rom_banking_mode := true

/-- MBC1::set_rom_bank.  The source match has exactly the three arms
0x00 => 0x01, 0x20 => 0x21, 0x40 => 0x41: there is no 0x60 arm and no
catch-all arm, although the field comment (mbc.rs lines 153-155) promises
0x60 -> 0x61 and pass-through for ordinary banks.  rustc rejects the match
as non-exhaustive; the embedding records the fall-through explicitly. -/
def MBC1.set_rom_bank (m : MBC1) (bank : Nat) : Except Crash MBC1 :=
  match bank with
  | 0x00 => .ok { m with rom_bank_number := 0x01 }
  | 0x20 => .ok { m with rom_bank_number := 0x21 }
  | 0x40 => .ok { m with rom_bank_number := 0x41 }
  | _ => .error .noMatchingArm

/-- MBC1::read (impl MemoryBankController).  The switchable window indexes
rom_banks directly with rom_bank_number; there is no reduction modulo a
bank count anywhere. -/
def MBC1.read (m : MBC1) (address : Nat) : Except Crash Nat :=
  if address < 0x4000 then .ok (m.rom_banks 0 address)
  else if address < 0x8000 then
    .ok (m.rom_banks m.rom_bank_number (address - 0x4000))
  else if 0xA000 ≤ address ∧ address < 0xC000 then
    m.ram_bank.read m.ram_bank_number (address - 0xA000)
  else .error .unreachableArm

/-- MBC1::write (impl MemoryBankController).  The 0x4000-0x5FFF arm of the
source assigns the low-five-bit snapshot through a nonexistent field
(self.oldval), a slip rustc rejects; the evident local binding it feeds into
set_rom_bank on the next line is embedded as a let.  The RAM-window arm
panics when the write-enable latch is off. -/
def MBC1.write (m : MBC1) (address : Nat) (value : Nat) : Except Crash MBC1 :=
  if address < 0x2000 then
    .ok { m with ram_write_enabled := value &&& 0xF == 0xA }
  else if address < 0x4000 then
    let oldnum := m.rom_bank_number &&& 0xE0
    let req := value &&& 0x1F
    m.set_rom_bank (oldnum ||| req)
  else if address < 0x6000 then
    let mask := value &&& 0x3
    if m.is_rom_banking_mode then
      let oldval := m.rom_bank_number &&& 0x1F
      m.set_rom_bank (oldval ||| (mask <<< 5))
    else
      .ok { m with ram_bank_number := mask }
  else if address < 0x8000 then
    match value with
    | 0x00 => .ok { m with is_rom_banking_mode := true, ram_bank_number := 0 }
    | 0x01 => .ok { m with is_rom_banking_mode := false,
                           rom_bank_number := m.rom_bank_number &&& 0x1F }
    | _ => .error .unreachableArm
  else if 0xA000 ≤ address ∧ address < 0xC000 then
    if !m.ram_write_enabled then .error .ramWriteDisabled
    else
      (m.ram_bank.write m.ram_bank_number (address - 0xA000) value).map
        fun r => { m with ram_bank := r }
  else .error .unreachableArm

/-- struct GBMemory of src/mbc.rs: the address bus.  vram and wram are
0x2000-byte arrays and hram a 0x80-byte array, modelled as total
functions. -/
structure GBMemory where
  mbc : MBC1
  vram : Nat → Nat
  wram : Nat → Nat
  hram : Nat → Nat

/-- GBMemory::new. -/
def GBMemory.new (mbc : MBC1) : GBMemory where
  mbc := mbc
  vram := fun _ => 0
  wram := fun _ => 0
  hram := fun _ => 0

/-- GBMemory::read.  The arm order and bounds mirror the source match; note
the HRAM arm is the half-open range 0xFF80..0xFFFE and the next arm is the
literal 0xFFFF, so the address 0xFFFE is covered by no arm at all (rustc
rejects the match as non-exhaustive), although the memory-map comment above
the struct places 0xFFFE inside High RAM. -/
def GBMemory.read (g : GBMemory) (address : Nat) : Except Crash Nat :=
  if address < 0x8000 then g.mbc.read address
  else if address < 0xA000 then .ok (g.vram (address - 0x8000))
  else if address < 0xC000 then g.mbc.read address
  else if address < 0xE000 then .ok (g.wram (address - 0xC000))
  else if address < 0xFE00 then .ok (g.wram (address - 0xE000))
  else if address < 0xFEA0 then .error .unhandledRegion
  else if address < 0xFF00 then .error .unhandledRegion
  else if address < 0xFF80 then .error .unhandledRegion
  else if address < 0xFFFE then .ok (g.hram (address - 0xFF80))
  else if address = 0xFFFF then .error .unhandledRegion
  else .error .noMatchingArm

/-- GBMemory::write, with the same arms (the source declares it on an
immutable receiver yet assigns, another slip rustc rejects; the intended
update semantics is embedded). -/
def GBMemory.write (g : GBMemory) (address : Nat) (value : Nat) :
    Except Crash GBMemory :=
  if address < 0x8000 then
    (g.mbc.write address value).map fun m => { g with mbc := m }
  else if address < 0xA000 then
    .ok { g with vram := fun j => if j = address - 0x8000 then value else g.vram j }
  else if address < 0xC000 then
    (g.mbc.write address value).map fun m => { g with mbc := m }
  else if address < 0xE000 then
    .ok { g with wram := fun j => if j = address - 0xC000 then value else g.wram j }
  else if address < 0xFE00 then
    .ok { g with wram := fun j => if j = address - 0xE000 then value else g.wram j }
  else if address < 0xFEA0 then .error .unhandledRegion
  else if address < 0xFF00 then .error .unhandledRegion
  else if address < 0xFF80 then .error .unhandledRegion
  else if address < 0xFFFE then
    .ok { g with hram := fun j => if j = address - 0xFF80 then value else g.hram j }
  else if address = 0xFFFF then .error .unhandledRegion
  else .error .noMatchingArm

/-- An all-zero 2 KiB RAM bank, used as the concrete RAM in witnesses. -/
def ram0 : Ram2kb := { memory := fun _ => 0 }

/-- A concrete address bus over a fresh MBC1, used in concrete evaluations. -/
def gb0 : GBMemory := GBMemory.new (MBC1.new ram0)

/-- Run a list of (address, value) writes against an MBC1.  A write that
crashes aborts the whole run (a Rust panic unwinds), so no state is reached
past it. -/
def MBC1.run_writes (m : MBC1) : List (Nat × Nat) → Option MBC1
  | [] => some m
  | (a, v) :: rest =>
    match m.write a v with
    | .ok m2 => m2.run_writes rest
    | .error _ => none

/-- The controller states reachable from a freshly constructed MBC1 by any
finite sequence of completed writes. -/
def MBC1.Reachable (ram : Ram2kb) (m : MBC1) : Prop :=
  ∃ ops : List (Nat × Nat), (MBC1.new ram).run_writes ops = some m

/-- Every successful set_rom_bank leaves the selector at 0x01, 0x21 or 0x41:
those are the only arms of its match. -/
theorem set_rom_bank_ok_selector {m m2 : MBC1} {bank : Nat}
    (h : m.set_rom_bank bank = .ok m2) :
    m2.rom_bank_number = 0x01 ∨ m2.rom_bank_number = 0x21 ∨
      m2.rom_bank_number = 0x41 := by
  unfold MBC1.set_rom_bank at h
  split at h
  · injection h with h
    subst h
    exact Or.inl rfl
  · injection h with h
    subst h
    exact Or.inr (Or.inl rfl)
  · injection h with h
    subst h
    exact Or.inr (Or.inr rfl)
  · exact Except.noConfusion h

/-- set_rom_bank touches no field besides the ROM bank selector. -/
theorem set_rom_bank_ok_frame {m m2 : MBC1} {bank : Nat}
    (h : m.set_rom_bank bank = .ok m2) :
    m2.ram_bank_number = m.ram_bank_number ∧
      m2.ram_write_enabled = m.ram_write_enabled ∧
      m2.is_rom_banking_mode = m.is_rom_banking_mode := by
  unfold MBC1.set_rom_bank at h
  split at h
  · injection h with h
    subst h
    exact ⟨rfl, rfl, rfl⟩
  · injection h with h
    subst h
    exact ⟨rfl, rfl, rfl⟩
  · injection h with h
    subst h
    exact ⟨rfl, rfl, rfl⟩
  · exact Except.noConfusion h

/-- One completed write keeps the selector inside {0x01, 0x21, 0x41}. -/
theorem write_ok_selector {m m2 : MBC1} {a v : Nat}
    (hinv : m.rom_bank_number = 0x01 ∨ m.rom_bank_number = 0x21 ∨
      m.rom_bank_number = 0x41)
    (h : m.write a v = .ok m2) :
    m2.rom_bank_number = 0x01 ∨ m2.rom_bank_number = 0x21 ∨
      m2.rom_bank_number = 0x41 := by
  unfold MBC1.write at h
  split_ifs at h with h1 h2 h3 h4 h5 h6
  · injection h with h
    subst h
    simpa using hinv
  · exact set_rom_bank_ok_selector h
  · exact set_rom_bank_ok_selector h
  · injection h with h
    subst h
    simpa using hinv
  · split at h
    · injection h with h
      subst h
      simpa using hinv
    · injection h with h
      subst h
      rcases hinv with h0 | h0 | h0 <;> simp [h0] <;> decide
    · exact Except.noConfusion h
  · revert h
    cases hw : m.ram_bank.write m.ram_bank_number (a - 0xA000) v with
    | ok r =>
      intro h
      simp only [hw, Except.map] at h
      injection h with h
      subst h
      simpa using hinv
    | error e =>
      intro h
      simp only [hw, Except.map] at h
      exact Except.noConfusion h

/-- Selector stability along any completed run of writes. -/
theorem run_writes_selector (ops : List (Nat × Nat)) :
    ∀ m m2 : MBC1,
      (m.rom_bank_number = 0x01 ∨ m.rom_bank_number = 0x21 ∨
        m.rom_bank_number = 0x41) →
      m.run_writes ops = some m2 →
      m2.rom_bank_number = 0x01 ∨ m2.rom_bank_number = 0x21 ∨
        m2.rom_bank_number = 0x41 := by
  induction ops with
  | nil =>
    intro m m2 hinv h
    unfold MBC1.run_writes at h
    cases h
    exact hinv
  | cons op rest ih =>
    intro m m2 hinv h
    obtain ⟨a, v⟩ := op
    unfold MBC1.run_writes at h
    revert h
    cases hw : m.write a v with
    | ok mm =>
      intro h
      exact ih mm m2 (write_ok_selector hinv hw) h
    | error e =>
      intro h
      cases h

/-- C8: in every MBC1 state reachable from construction by completed
writes, the assembled ROM bank selector is never 0 and never one of the
aliasing multiples of 0x20 (0x20, 0x40, 0x60): construction starts it at 1
and every write arm lands it back in {0x01, 0x21, 0x41}. -/
theorem C8_selector_never_aliased (ram : Ram2kb) (m : MBC1)
    (h : MBC1.Reachable ram m) :
    m.rom_bank_number ≠ 0x00 ∧ m.rom_bank_number ≠ 0x20 ∧
      m.rom_bank_number ≠ 0x40 ∧ m.rom_bank_number ≠ 0x60 := by
  obtain ⟨ops, hops⟩ := h
  have hsel := run_writes_selector ops (MBC1.new ram) m (by left; rfl) hops
  rcases hsel with h0 | h0 | h0 <;> rw [h0] <;>
    exact ⟨by decide, by decide, by decide, by decide⟩

/-- Witness for C8 at the freshly constructed controller (reachable via the
empty write sequence). -/
theorem C8_selector_never_aliased_witness :
    (MBC1.new ram0).rom_bank_number ≠ 0x00 ∧
      (MBC1.new ram0).rom_bank_number ≠ 0x20 ∧
      (MBC1.new ram0).rom_bank_number ≠ 0x40 ∧
      (MBC1.new ram0).rom_bank_number ≠ 0x60 :=
  C8_selector_never_aliased ram0 (MBC1.new ram0) ⟨[], rfl⟩

/-- C9: from any MBC1 state, the control-write sequence value 1 then value 0
to 0x6000-0x7FFF (RomBanking -> RamBanking -> RomBanking) completes, the
RamBanking entry masks the selector to its low 5 bits, and the RomBanking
re-entry zeroes the RAM bank selector, so the round trip preserves the low
5 selector bits and leaves the high 2 bits zero. -/
theorem C9_mode_round_trip (m : MBC1) :
    ∃ m1 m2 : MBC1,
      m.write 0x6000 0x01 = .ok m1 ∧
      m1.write 0x6000 0x00 = .ok m2 ∧
      m1.is_rom_banking_mode = false ∧
      m1.rom_bank_number = m.rom_bank_number &&& 0x1F ∧
      m2.is_rom_banking_mode = true ∧
      m2.ram_bank_number = 0 ∧
      m2.rom_bank_number = m.rom_bank_number &&& 0x1F ∧
      m2.rom_bank_number &&& 0x1F = m.rom_bank_number &&& 0x1F ∧
      m2.rom_bank_number >>> 5 = 0 := by
  refine ⟨_, _, rfl, rfl, rfl, rfl, rfl, rfl, rfl, ?_, ?_⟩
  · show (m.rom_bank_number &&& 0x1F) &&& 0x1F = m.rom_bank_number &&& 0x1F
    rw [Nat.and_assoc, Nat.and_self]
  · show (m.rom_bank_number &&& 0x1F) >>> 5 = 0
    rw [Nat.shiftRight_eq_div_pow]
    exact Nat.div_eq_of_lt (Nat.lt_of_le_of_lt Nat.and_le_right (by decide))

/-- C10: a freshly constructed MBC1 has selector 1, RAM bank 0, RAM writes
disabled and RomBanking mode; before any control write, every read of the
switchable window 0x4000-0x7FFF comes from ROM bank 1 and every write to
0xA000-0xBFFF is rejected (with the write-disabled abort) rather than
stored. -/
theorem C10_fresh_controller (ram : Ram2kb) :
    (MBC1.new ram).rom_bank_number = 1 ∧
      (MBC1.new ram).ram_bank_number = 0 ∧
      (MBC1.new ram).ram_write_enabled = false ∧
      (MBC1.new ram).is_rom_banking_mode = true ∧
      (∀ a, 0x4000 ≤ a → a < 0x8000 →
        (MBC1.new ram).read a = .ok ((MBC1.new ram).rom_banks 1 (a - 0x4000))) ∧
      (∀ a v, 0xA000 ≤ a → a < 0xC000 →
        (MBC1.new ram).write a v = .error .ramWriteDisabled) := by
  refine ⟨rfl, rfl, rfl, rfl, ?_, ?_⟩
  · intro a h1 h2
    unfold MBC1.read
    rw [if_neg (by omega), if_pos h2]
    rfl
  · intro a v h1 h2
    unfold MBC1.write
    rw [if_neg (by omega), if_neg (by omega), if_neg (by omega),
      if_neg (by omega), if_pos ⟨h1, h2⟩]
    rfl

/-- Witness for C10 at concrete addresses of both windows. -/
theorem C10_fresh_controller_witness :
    (MBC1.new ram0).read 0x4000 = .ok ((MBC1.new ram0).rom_banks 1 0) ∧
      (MBC1.new ram0).write 0xA000 0x42 = .error .ramWriteDisabled :=
  ⟨(C10_fresh_controller ram0).2.2.2.2.1 0x4000 (by decide) (by decide),
   (C10_fresh_controller ram0).2.2.2.2.2 0xA000 0x42 (by decide) (by decide)⟩

/-- C1: the claim says a write to 0xA000-0xBFFF with the write-enable latch
off is silently discarded and is not an error; the code instead executes an
explicit panic (mbc.rs line 266).  This theorem evaluates the embedded code
at the failing input: after a control write of 0x00 to 0x0000 (low nibble
not 0xA, so writes stay disabled), the RAM-window write aborts with the
write-disabled crash, which is not a silent success. -/
theorem C1_disabled_ram_write_aborts :
    ∃ m1 : MBC1,
      (MBC1.new ram0).write 0x0000 0x00 = .ok m1 ∧
      m1.ram_write_enabled = false ∧
      m1.write 0xA000 0x42 = .error .ramWriteDisabled ∧
      ∀ m2 : MBC1, m1.write 0xA000 0x42 ≠ .ok m2 := by
  refine ⟨_, rfl, rfl, rfl, fun m2 h => by cases h⟩

/-- C2: the claim (and the field comment at mbc.rs lines 153-155) says the
assembled index 0x60 remaps to 0x61 and any value outside
{0x00, 0x20, 0x40, 0x60} passes through unchanged; the match in
set_rom_bank has no arm for either case, so both crash instead of
selecting a bank.  Evaluated here at the assembled values 0x60 and 0x02,
and through the cartridge-facing write of 0x02 to 0x2000-0x3FFF. -/
theorem C2_set_rom_bank_match_incomplete :
    (MBC1.new ram0).set_rom_bank 0x60 = .error .noMatchingArm ∧
      (MBC1.new ram0).set_rom_bank 0x02 = .error .noMatchingArm ∧
      (MBC1.new ram0).write 0x2000 0x02 = .error .noMatchingArm ∧
      ∀ m2 : MBC1, (MBC1.new ram0).write 0x2000 0x02 ≠ .ok m2 :=
  ⟨rfl, rfl, rfl, fun m2 h => by cases h⟩

/-- C4: the claim says the bus read and write are total over the 16-bit
address space, every address yielding a defined outcome or the explicit
unhandled-region signal.  The HRAM arm of the source match is the half-open
range 0xFF80..0xFFFE and the next arm is the literal 0xFFFF, so the address
0xFFFE (which the code's own memory map places in High RAM) is covered by
no arm: rustc rejects the match, and dynamically no outcome is defined.
Neighbouring addresses behave as the claim describes. -/
theorem C4_address_FFFE_uncovered :
    gb0.read 0xFFFE = .error .noMatchingArm ∧
      gb0.write 0xFFFE 0x42 = .error .noMatchingArm ∧
      Crash.noMatchingArm ≠ Crash.unhandledRegion ∧
      gb0.read 0xFFFD = .ok 0 ∧
      gb0.read 0xFE00 = .error .unhandledRegion ∧
      gb0.read 0xFFFF = .error .unhandledRegion :=
  ⟨rfl, rfl, by decide, rfl, rfl, rfl⟩

/-- The C7 claim's own reading policy, stated from the spec's words for
comparison with the code: the switchable-window read should index the bank
array with the selector reduced modulo the cartridge's actual bank count. -/
def spec_read_mod_bank_count (m : MBC1) (bank_count : Nat) (a : Nat) : Nat :=
  m.rom_banks (m.rom_bank_number % bank_count) (a - 0x4000)

/-- An MBC1 holding a four-bank image: bank 1 starts with byte 7, all other
image bytes are zero, and the fixed bank array's padding banks 4..0x7F are
the zero-initialised default.  Its selector has been taken to 5, beyond the
four banks physically present. -/
def mbc_four_banks : MBC1 where
  rom_banks := fun b o => if b = 1 ∧ o = 0 then 7 else 0
  rom_bank_number := 5
  ram_bank := ram0
  ram_bank_number := 0
  ram_write_enabled := false
  is_rom_banking_mode := true

/-- C7 counterexample: with four banks physically present and selector 5,
the claim's modulo policy would read bank 1 (byte 7); the code reads the
zero-filled padding bank 5 directly, so the claimed reduction modulo the
actual bank count does not happen. -/
theorem C7_no_modulo_counterexample :
    mbc_four_banks.read 0x4000 = .ok 0 ∧
      spec_read_mod_bank_count mbc_four_banks 4 0x4000 = 7 ∧
      (0 : Nat) ≠ 7 :=
  ⟨rfl, rfl, by decide⟩

/-- C7 amended: the switchable-window read indexes the fixed 128-bank array
directly with the selector, with no reduction modulo the image's bank
count; since the array is allocated at full size with zeroed padding, the
read never propagates an error, it returns the padding contents. -/
theorem C7_direct_indexing_no_fault (m : MBC1) (a : Nat)
    (h1 : 0x4000 ≤ a) (h2 : a < 0x8000) :
    m.read a = .ok (m.rom_banks m.rom_bank_number (a - 0x4000)) := by
  unfold MBC1.read
  rw [if_neg (by omega), if_pos h2]

/-- Witness for C7's amended theorem at the four-bank controller. -/
theorem C7_direct_indexing_no_fault_witness :
    mbc_four_banks.read 0x4000 =
      .ok (mbc_four_banks.rom_banks mbc_four_banks.rom_bank_number 0) :=
  C7_direct_indexing_no_fault mbc_four_banks 0x4000 (by decide) (by decide)

/-! ### Header parsing (src/cart.rs and src/cartridge.rs)

A ROM image is a List Nat of byte values.  Rust indexing and slicing abort
on out-of-bounds access; the two helpers below make that explicit. -/

/-- Rust indexing buf[i]: an index panic when i is out of bounds. -/
def idx (buf : List Nat) (i : Nat) : Except Crash Nat :=
  if i < buf.length then .ok (buf.getD i 0) else .error .outOfBounds

/-- Rust slicing buf[a..b]: a slice panic when the range exceeds the
buffer. -/
def slice (buf : List Nat) (a b : Nat) : Except Crash (List Nat) :=
  if a ≤ b ∧ b ≤ buf.length then .ok ((buf.drop a).take (b - a))
  else .error .outOfBounds

/-- enum GameboyRegionCode (identical in cart.rs and cartridge.rs). -/
inductive GameboyRegionCode where
  | Japan : GameboyRegionCode
  | NonJapan : GameboyRegionCode
  | Invalid : Nat → GameboyRegionCode
deriving DecidableEq

/-- GameboyRegionCode::new. -/
def GameboyRegionCode.new (byte : Nat) : GameboyRegionCode :=
  match byte with
  | 0x00 => .Japan
  | 0x01 => .NonJapan
  | x => .Invalid x

/-- enum GameboyColorFlag (identical in cart.rs and cartridge.rs). -/
inductive GameboyColorFlag where
  | Undefined : GameboyColorFlag
  | BackwardsCompatible : GameboyColorFlag
  | GBCOnly : GameboyColorFlag
  | Invalid : Nat → GameboyColorFlag
deriving DecidableEq

/-- GameboyColorFlag::new. -/
def GameboyColorFlag.new (byte : Nat) : GameboyColorFlag :=
  match byte with
  | 0x00 => .Undefined
  | 0x80 => .BackwardsCompatible
  | 0xC0 => .GBCOnly
  | x => .Invalid x

/-- enum SuperGameboyFeatureFlag (identical in cart.rs and cartridge.rs). -/
inductive SuperGameboyFeatureFlag where
  | Unsupported : SuperGameboyFeatureFlag
  | Supported : SuperGameboyFeatureFlag
  | Invalid : Nat → SuperGameboyFeatureFlag
deriving DecidableEq

/-- SuperGameboyFeatureFlag::new. -/
def SuperGameboyFeatureFlag.new (byte : Nat) : SuperGameboyFeatureFlag :=
  match byte with
  | 0x00 => .Unsupported
  | 0x03 => .Supported
  | x => .Invalid x

/-- calculate_header_checksum (textually identical in cart.rs, cartridge.rs
and main.rs): over the 0x19 bytes at offsets 0x134..=0x14C accumulate
acc = acc - byte - 1 in wrapping u8 arithmetic, from 0.  The u8 wrapping
subtraction acc - x - 1 is written (acc + 511 - x % 256) % 256, exact for
every accumulator below 256; the % 256 on the byte models its u8 type. -/
def calculate_header_checksum (buf : List Nat) : Nat :=
  ((buf.drop 0x134).take (0x14C - 0x134 + 1)).foldl
    (fun acc x => (acc + 511 - x % 256) % 256) 0

/-- The enumerate-filter-fold of calculate_global_checksum, carried out
with an explicit running index: every byte except those at absolute
indices 0x14E and 0x14F joins a wrapping u16 sum. -/
def global_checksum_fold (i : Nat) (acc : Nat) : List Nat → Nat
  | [] => acc
  | x :: rest =>
      global_checksum_fold (i + 1)
        (if i = 0x14E ∨ i = 0x14F then acc else (acc + x % 256) % 65536) rest

/-- calculate_global_checksum (textually identical in cart.rs, cartridge.rs
and main.rs). -/
def calculate_global_checksum (buf : List Nat) : Nat :=
  global_checksum_fold 0 0 buf

/-- One continuation byte of a UTF-8 sequence. -/
def utf8_cont (b : Nat) : Bool := 0x80 ≤ b && b ≤ 0xBF

/-- Validity of a byte sequence as UTF-8: the acceptance condition of Rust
std::str::from_utf8, which cart.rs bufstr applies to the title bytes.
ASCII passes through; 2-, 3- and 4-byte sequences require their leading
byte in range and their continuations in the ranges that exclude overlong
encodings and surrogates. -/
def valid_utf8 : List Nat → Bool
  | [] => true
  | b :: rest =>
    if b < 0x80 then valid_utf8 rest
    else if b < 0xC2 then false
    else if b ≤ 0xDF then
      match rest with
      | [] => false
      | c1 :: r2 => utf8_cont c1 && valid_utf8 r2
    else if b ≤ 0xEF then
      match rest with
      | c1 :: c2 :: r3 =>
        (if b = 0xE0 then 0xA0 ≤ c1 && c1 ≤ 0xBF
         else if b = 0xED then 0x80 ≤ c1 && c1 ≤ 0x9F
         else utf8_cont c1) && utf8_cont c2 && valid_utf8 r3
      | _ => false
    else if b ≤ 0xF4 then
      match rest with
      | c1 :: c2 :: c3 :: r4 =>
        (if b = 0xF0 then 0x90 ≤ c1 && c1 ≤ 0xBF
         else if b = 0xF4 then 0x80 ≤ c1 && c1 ≤ 0x8F
         else utf8_cont c1) && utf8_cont c2 && utf8_cont c3 && valid_utf8 r4
      | _ => false
    else false

/-- Inversion principle for Except bind, used to trace a successful parse
back through its steps. -/
theorem except_bind_ok {α β : Type} {e : Except Crash α}
    {f : α → Except Crash β} {b : β} :
    (e >>= f) = .ok b ↔ ∃ a, e = .ok a ∧ f a = .ok b := by
  cases e <;> simp [Bind.bind, Except.bind]

/-- idx succeeds exactly on in-bounds positions. -/
theorem idx_ok {buf : List Nat} {i : Nat} (h : i < buf.length) :
    idx buf i = .ok (buf.getD i 0) := by
  unfold idx
  exact if_pos h

/-- slice succeeds exactly on in-bounds ranges. -/
theorem slice_ok {buf : List Nat} {a b : Nat} (hab : a ≤ b)
    (h : b ≤ buf.length) :
    slice buf a b = .ok ((buf.drop a).take (b - a)) := by
  unfold slice
  exact if_pos ⟨hab, h⟩

namespace Cart

/-- The prefix of the buffer before its first null byte: what fn bufstr of
src/cart.rs hands to the UTF-8 check. -/
def title_bytes (buf : List Nat) : List Nat :=
  match buf.findIdx? (fun x => x == 0) with
  | some i => buf.take i
  | none => buf

/-- fn bufstr of src/cart.rs: the prefix before the first null must be
valid UTF-8, otherwise the Utf8Error is returned (the one recoverable
error of the parser).  The embedding keeps the raw bytes in place of the
borrowed str. -/
def bufstr (buf : List Nat) : Except Crash (List Nat) :=
  if valid_utf8 (title_bytes buf) then .ok (title_bytes buf)
  else .error .titleNotUtf8

/-- struct GameboyProgramMeta of src/cart.rs.  Text fields keep their raw
bytes; the borrowed slices are materialised. -/
structure GameboyProgramMeta where
  name : List Nat
  manufacturer_code : List Nat
  licensee_code : List Nat
  color_flag : GameboyColorFlag
  super_gameboy_flag : SuperGameboyFeatureFlag
  features_flag : Nat
  cartridge_size_indicator : Nat
  ram_size_indicator : Nat
  region_code : GameboyRegionCode
  program_version_number : Nat
  header_checksum : Nat
  global_checksum : Nat
  header_checksum_calculated : Nat
  global_checksum_calculated : Nat
  logo_bitmap : List Nat
  program_size : Nat

/-- GameboyProgramMeta::new of src/cart.rs, in the source's evaluation
order: licensee code first, then the logo slice, then the struct fields
top to bottom.  There is no length guard anywhere, so a short input aborts
at the first out-of-bounds index or slice; the only recoverable error is
the UTF-8 failure propagated out of bufstr.  The declared global checksum
is read big-endian (BigEndian::read_u16 over the slice at 0x14E..0x150). -/
def GameboyProgramMeta.new (program : List Nat) :
    Except Crash GameboyProgramMeta := do
  let b14B ← idx program 0x14B
  let l_code ←
    if b14B = 0x33 then do
      let c1 ← idx program 0x144
      let c2 ← idx program 0x145
      pure [c1, c2]
    else
      pure [b14B]
  let logo ← slice program 0x104 (0x104 + 48)
  let name_buf ← slice program 0x134 0x143
  let name ← bufstr name_buf
  let manufacturer ← slice program 0x13F 0x143
  let b143 ← idx program 0x143
  let b146 ← idx program 0x146
  let b147 ← idx program 0x147
  let b148 ← idx program 0x148
  let b149 ← idx program 0x149
  let b14A ← idx program 0x14A
  let b14C ← idx program 0x14C
  let b14D ← idx program 0x14D
  let gcs ← slice program 0x14E 0x150
  pure {
    name := name
    manufacturer_code := manufacturer
    licensee_code := l_code
    color_flag := GameboyColorFlag.new b143
    super_gameboy_flag := SuperGameboyFeatureFlag.new b146
    features_flag := b147
    cartridge_size_indicator := b148
    ram_size_indicator := b149
    region_code := GameboyRegionCode.new b14A
    program_version_number := b14C
    header_checksum := b14D
    global_checksum := ((gcs.getD 0 0 % 256) <<< 8) ||| (gcs.getD 1 0 % 256)
    header_checksum_calculated := calculate_header_checksum program
    global_checksum_calculated := calculate_global_checksum program
    logo_bitmap := logo
    program_size := program.length }

end Cart

namespace Cartridge

/-- static NINTENDO_BITMAP_EXPECTED of src/cartridge.rs: the 48-byte
reference logo bitmap. -/
def NINTENDO_BITMAP_EXPECTED : List Nat :=
  [0xCE, 0xED, 0x66, 0x66, 0xCC, 0x0D, 0x00, 0x0B, 0x03, 0x73, 0x00, 0x83,
   0x00, 0x0C, 0x00, 0x0D, 0x00, 0x08, 0x11, 0x1F, 0x88, 0x89, 0x00, 0x0E,
   0xDC, 0xCC, 0x6E, 0xE6, 0xDD, 0xDD, 0xD9, 0x99, 0xBB, 0xBB, 0x67, 0x63,
   0x6E, 0x0E, 0xEC, 0xCC, 0xDD, 0xDC, 0x99, 0x9F, 0xBB, 0xB9, 0x33, 0x3E]

/-- struct GameboyProgramMeta of src/cartridge.rs (the earlier draft of the
same parser: owned name and fixed arrays, no Result). -/
structure GameboyProgramMeta where
  name : List Nat
  manufacturer_code : List Nat
  licensee_code : List Nat
  color_flag : GameboyColorFlag
  super_gameboy_flag : SuperGameboyFeatureFlag
  features_flag : Nat
  cartridge_size_indicator : Nat
  ram_size_indicator : Nat
  region_code : GameboyRegionCode
  program_version_number : Nat
  header_checksum : Nat
  global_checksum : Nat
  header_checksum_calculated : Nat
  global_checksum_calculated : Nat
  nintendo_bitmap : List Nat
  program_size : Nat

/-- GameboyProgramMeta::new of src/cartridge.rs.  The name is built from a
plain iterator chain (16 bytes from 0x134, cut at the first null) and
cannot abort; indexing and the 48-byte logo copy loop abort on a short
input exactly as Rust indexing does.  The declared global checksum is
assembled with the LOW byte at 0x14E and the high byte shifted in from
0x14F (program[0x14E] as u16 | (program[0x14F] as u16) << 8). -/
def GameboyProgramMeta.new (program : List Nat) :
    Except Crash GameboyProgramMeta := do
  let name := ((program.drop 0x134).take (0x143 - 0x134 + 1)).takeWhile
    (fun x => x ≠ 0)
  let b14B ← idx program 0x14B
  let l_code ←
    if b14B = 0x33 then do
      let c1 ← idx program 0x144
      let c2 ← idx program 0x145
      pure [c1, c2]
    else
      pure [b14B]
  let logo ← slice program 0x104 (0x104 + 48)
  let m13F ← idx program 0x13F
  let m140 ← idx program 0x140
  let m141 ← idx program 0x141
  let m142 ← idx program 0x142
  let b143 ← idx program 0x143
  let b146 ← idx program 0x146
  let b147 ← idx program 0x147
  let b148 ← idx program 0x148
  let b149 ← idx program 0x149
  let b14A ← idx program 0x14A
  let b14C ← idx program 0x14C
  let b14D ← idx program 0x14D
  let b14E ← idx program 0x14E
  let b14F ← idx program 0x14F
  pure {
    name := name
    manufacturer_code := [m13F, m140, m141, m142]
    licensee_code := l_code
    color_flag := GameboyColorFlag.new b143
    super_gameboy_flag := SuperGameboyFeatureFlag.new b146
    features_flag := b147
    cartridge_size_indicator := b148
    ram_size_indicator := b149
    region_code := GameboyRegionCode.new b14A
    program_version_number := b14C
    header_checksum := b14D
    global_checksum := (b14E % 256) ||| ((b14F % 256) <<< 8)
    header_checksum_calculated := calculate_header_checksum program
    global_checksum_calculated := calculate_global_checksum program
    nintendo_bitmap := logo
    program_size := program.length }

/-- is_valid_logo of src/cartridge.rs: elementwise equality (itertools)
between the stored bitmap and the reference bitmap. -/
def GameboyProgramMeta.is_valid_logo (m : GameboyProgramMeta) : Bool :=
  m.nintendo_bitmap == NINTENDO_BITMAP_EXPECTED

/-- is_valid_header: declared header checksum equals the computed one. -/
def GameboyProgramMeta.is_valid_header (m : GameboyProgramMeta) : Bool :=
  m.header_checksum == m.header_checksum_calculated

/-- is_valid_program: declared global checksum equals the computed one;
the source comments that failure does not block execution. -/
def GameboyProgramMeta.is_valid_program (m : GameboyProgramMeta) : Bool :=
  m.global_checksum == m.global_checksum_calculated

/-- is_runable: valid header checksum AND valid logo; the global checksum
takes no part. -/
def GameboyProgramMeta.is_runable (m : GameboyProgramMeta) : Bool :=
  m.is_valid_header && m.is_valid_logo

/-- The flip of one logo byte that C5's parenthetical describes, applied
to the parsed header value: position i of the stored bitmap is replaced
by v. -/
def set_logo_byte (m : GameboyProgramMeta) (i v : Nat) : GameboyProgramMeta :=
  { m with nintendo_bitmap := m.nintendo_bitmap.set i v }

end Cartridge

/-- Bind of a success reduces to the continuation. -/
theorem ok_bind {α β : Type} (a : α) (f : α → Except Crash β) :
    ((Except.ok a : Except Crash α) >>= f) = f a := rfl

/-- Bind of a failure short-circuits. -/
theorem error_bind {α β : Type} (e : Crash) (f : α → Except Crash β) :
    ((Except.error e : Except Crash α) >>= f) = .error e := rfl

/-- pure on Except is the success constructor. -/
theorem except_pure_ok {α : Type} (a : α) :
    (pure a : Except Crash α) = Except.ok a := rfl

/-- Appending splits the global-checksum fold, shifting the running
index. -/
theorem global_checksum_fold_append (l1 : List Nat) :
    ∀ (k acc : Nat) (l2 : List Nat),
      global_checksum_fold k acc (l1 ++ l2) =
        global_checksum_fold (k + l1.length) (global_checksum_fold k acc l1) l2 := by
  induction l1 with
  | nil => intro k acc l2; simp [global_checksum_fold]
  | cons x r ih =>
    intro k acc l2
    rw [List.cons_append]
    have hstep : ∀ t, global_checksum_fold k acc (x :: t) =
        global_checksum_fold (k + 1)
          (if k = 0x14E ∨ k = 0x14F then acc else (acc + x % 256) % 65536) t :=
      fun t => rfl
    rw [hstep, ih, hstep]
    have harith : k + 1 + r.length = k + (x :: r).length := by
      simp only [List.length_cons]
      omega
    rw [harith]

/-- The bytes at absolute offsets 0x14E and 0x14F never join the computed
global checksum: replacing them leaves the sum unchanged. -/
theorem global_checksum_skips_declared (pre post : List Nat)
    (b1 b2 c1 c2 : Nat) (hpre : pre.length = 0x14E) :
    calculate_global_checksum (pre ++ b1 :: b2 :: post) =
      calculate_global_checksum (pre ++ c1 :: c2 :: post) := by
  unfold calculate_global_checksum
  rw [global_checksum_fold_append, global_checksum_fold_append, hpre]
  simp [global_checksum_fold]

/-- The declared global checksum as the C3 spec sentence words it: a
big-endian 16-bit value over offsets 0x14E-0x14F, high byte at 0x14E.
Stated from the spec to compare against the two parser drafts. -/
def spec_declared_global_checksum_be (p : List Nat) : Nat :=
  (p.getD 0x14E 0 % 256) * 256 + p.getD 0x14F 0 % 256

/-- A 0x150-byte image whose only nonzero bytes are the declared global
checksum: 0x12 at offset 0x14E and 0x34 at offset 0x14F. -/
def img_BE : List Nat := List.replicate 0x14E 0 ++ [0x12, 0x34]

set_option maxRecDepth 8000 in
/-- C3: the computed global checksum does skip the two declared bytes (on
this image all other bytes are zero, so the computed sum is 0), and the
spec's big-endian declared value at this image is 0x1234, which is what
cart.rs parses; but cartridge.rs (line 134) assembles the declared value
with the low byte at 0x14E, yielding 0x3412 — the big-endian reading the
claim states does not hold for the cartridge.rs draft. -/
theorem C3_declared_checksum_endianness :
    (Cartridge.GameboyProgramMeta.new img_BE).map
        (fun m => m.global_checksum) = .ok 0x3412 ∧
      (Cart.GameboyProgramMeta.new img_BE).map
        (fun m => m.global_checksum) = .ok 0x1234 ∧
      spec_declared_global_checksum_be img_BE = 0x1234 ∧
      (0x3412 : Nat) ≠ 0x1234 ∧
      calculate_global_checksum img_BE = 0 :=
  ⟨rfl, rfl, rfl, by decide, rfl⟩

/-- Flipping a byte of a 48-entry bitmap to a value that disagrees with
the reference bitmap at that position makes the elementwise comparison
fail, whatever the bitmap held before. -/
theorem set_logo_ne_expected {l : List Nat} {i v : Nat} (hi : i < 48)
    (hv : v ≠ Cartridge.NINTENDO_BITMAP_EXPECTED.getD i 0) :
    (l.set i v == Cartridge.NINTENDO_BITMAP_EXPECTED) = false := by
  rw [beq_eq_false_iff_ne]
  intro heq
  by_cases hlen : i < l.length
  · have h1 : (l.set i v).getD i 0 = v := by
      simp [List.getD_eq_getElem?_getD, List.getElem?_set_self',
        List.getElem?_eq_getElem, hlen]
    rw [heq] at h1
    exact hv h1.symm
  · have h2 : (l.set i v).length = l.length := List.length_set l i v
    rw [heq] at h2
    have h3 : Cartridge.NINTENDO_BITMAP_EXPECTED.length = 48 := by decide
    omega

/-- C5: runnability of a parsed header is exactly the conjunction of the
header-checksum comparison and the logo comparison; the computed checksums
of a successful parse are pure functions of the image; and flipping one
logo byte of the parsed value falsifies is_runable while the
global-checksum verdict (is_valid_program) is untouched. -/
theorem C5_runnable_header_and_logo_only :
    (∀ m : Cartridge.GameboyProgramMeta,
      m.is_runable = ((m.header_checksum == m.header_checksum_calculated) &&
        (m.nintendo_bitmap == Cartridge.NINTENDO_BITMAP_EXPECTED))) ∧
    (∀ (p : List Nat) (m : Cartridge.GameboyProgramMeta),
      Cartridge.GameboyProgramMeta.new p = .ok m →
      m.header_checksum_calculated = calculate_header_checksum p ∧
      m.global_checksum_calculated = calculate_global_checksum p ∧
      m.header_checksum = p.getD 0x14D 0 ∧
      m.nintendo_bitmap = (p.drop 0x104).take 48) ∧
    (∀ (m : Cartridge.GameboyProgramMeta) (i v : Nat), i < 48 →
      v ≠ Cartridge.NINTENDO_BITMAP_EXPECTED.getD i 0 →
      (Cartridge.set_logo_byte m i v).is_runable = false ∧
      (Cartridge.set_logo_byte m i v).is_valid_program = m.is_valid_program) := by
  refine ⟨fun m => rfl, ?_, ?_⟩
  · intro p m hok
    simp only [Cartridge.GameboyProgramMeta.new, except_pure_ok,
      except_bind_ok, Except.ok.injEq] at hok
    obtain ⟨b14B, h1, hok⟩ := hok
    split at hok
    · simp only [except_pure_ok, except_bind_ok, Except.ok.injEq] at hok
      obtain ⟨c1, hc1, c2, hc2, lcode, hlc, logo, h3, m13F, h4, m140, h5,
        m141, h6, m142, h7, b143, h8, b146, h9, b147, h10, b148, h11, b149,
        h12, b14A, h13, b14C, h14, b14D, h15, b14E, h16, b14F, h17, hrec⟩ := hok
      subst hrec
      refine ⟨rfl, rfl, ?_, ?_⟩
      · unfold idx at h15
        split at h15
        · injection h15 with h15
          exact h15.symm
        · exact Except.noConfusion h15
      · unfold slice at h3
        split at h3
        · injection h3 with h3
          rw [← h3]
        · exact Except.noConfusion h3
    · simp only [except_pure_ok, except_bind_ok, Except.ok.injEq] at hok
      obtain ⟨lcode, hlc, logo, h3, m13F, h4, m140, h5, m141, h6, m142, h7,
        b143, h8, b146, h9, b147, h10, b148, h11, b149, h12, b14A, h13, b14C,
        h14, b14D, h15, b14E, h16, b14F, h17, hrec⟩ := hok
      subst hrec
      refine ⟨rfl, rfl, ?_, ?_⟩
      · unfold idx at h15
        split at h15
        · injection h15 with h15
          exact h15.symm
        · exact Except.noConfusion h15
      · unfold slice at h3
        split at h3
        · injection h3 with h3
          rw [← h3]
        · exact Except.noConfusion h3
  · intro m i v hi hv
    constructor
    · have hlogo := set_logo_ne_expected (l := m.nintendo_bitmap) hi hv
      simp [Cartridge.GameboyProgramMeta.is_runable, Cartridge.set_logo_byte,
        Cartridge.GameboyProgramMeta.is_valid_logo,
        Cartridge.GameboyProgramMeta.is_valid_header, hlogo]
    · rfl

/-- For an image of at least 0x150 bytes every index and slice of the
cart.rs parser is in bounds, so the outcome is decided by the title bytes
alone: a valid-UTF-8 title prefix yields a header value, an invalid one
yields the recoverable title error. -/
theorem Cart_new_of_min_length {p : List Nat} (h : 0x150 ≤ p.length) :
    (valid_utf8 (Cart.title_bytes ((p.drop 0x134).take 0xF)) = true →
      ∃ m, Cart.GameboyProgramMeta.new p = .ok m) ∧
    (valid_utf8 (Cart.title_bytes ((p.drop 0x134).take 0xF)) = false →
      Cart.GameboyProgramMeta.new p = .error .titleNotUtf8) := by
  have e14B : idx p 0x14B = .ok (p.getD 0x14B 0) := idx_ok (by omega)
  have e144 : idx p 0x144 = .ok (p.getD 0x144 0) := idx_ok (by omega)
  have e145 : idx p 0x145 = .ok (p.getD 0x145 0) := idx_ok (by omega)
  have e143 : idx p 0x143 = .ok (p.getD 0x143 0) := idx_ok (by omega)
  have e146 : idx p 0x146 = .ok (p.getD 0x146 0) := idx_ok (by omega)
  have e147 : idx p 0x147 = .ok (p.getD 0x147 0) := idx_ok (by omega)
  have e148 : idx p 0x148 = .ok (p.getD 0x148 0) := idx_ok (by omega)
  have e149 : idx p 0x149 = .ok (p.getD 0x149 0) := idx_ok (by omega)
  have e14A : idx p 0x14A = .ok (p.getD 0x14A 0) := idx_ok (by omega)
  have e14C : idx p 0x14C = .ok (p.getD 0x14C 0) := idx_ok (by omega)
  have e14D : idx p 0x14D = .ok (p.getD 0x14D 0) := idx_ok (by omega)
  have elogo : slice p 0x104 (0x104 + 48) = .ok ((p.drop 0x104).take 48) := by
    rw [slice_ok (by omega) (by omega)]
  have ename : slice p 0x134 0x143 = .ok ((p.drop 0x134).take 0xF) := by
    rw [slice_ok (by omega) (by omega)]
  have eman : slice p 0x13F 0x143 = .ok ((p.drop 0x13F).take 4) := by
    rw [slice_ok (by omega) (by omega)]
  have egcs : slice p 0x14E 0x150 = .ok ((p.drop 0x14E).take 2) := by
    rw [slice_ok (by omega) (by omega)]
  constructor
  · intro hv
    unfold Cart.GameboyProgramMeta.new
    by_cases hb : p.getD 0x14B 0 = 0x33
    · simp only [e14B, ok_bind, hb, eq_self_iff_true, if_true, e144, e145,
        except_pure_ok, elogo, ename, eman, e143, e146, e147, e148, e149,
        e14A, e14C, e14D, egcs, Cart.bufstr]
      rw [if_pos (by simpa using hv)]
      simp only [ok_bind]
      exact ⟨_, rfl⟩
    · simp only [e14B, ok_bind, hb, if_false, except_pure_ok, elogo, ename,
        eman, e143, e146, e147, e148, e149, e14A, e14C, e14D, egcs,
        Cart.bufstr]
      rw [if_pos (by simpa using hv)]
      simp only [ok_bind]
      exact ⟨_, rfl⟩
  · intro hv
    unfold Cart.GameboyProgramMeta.new
    by_cases hb : p.getD 0x14B 0 = 0x33
    · simp only [e14B, ok_bind, hb, eq_self_iff_true, if_true, e144, e145,
        except_pure_ok, elogo, ename, eman, e143, e146, e147, e148, e149,
        e14A, e14C, e14D, egcs, Cart.bufstr]
      rw [if_neg (by simpa using hv)]
      simp only [error_bind]
    · simp only [e14B, ok_bind, hb, if_false, except_pure_ok, elogo, ename,
        eman, e143, e146, e147, e148, e149, e14A, e14C, e14D, egcs,
        Cart.bufstr]
      rw [if_neg (by simpa using hv)]
      simp only [error_bind]

/-- C6 (amended): for images of at least 0x150 bytes, cart.rs header
parsing surfaces its recoverable error exactly when the title region
before the first null is not valid UTF-8, and otherwise returns a header
value; an input shorter than 0x150 bytes never returns a header value —
it aborts on an out-of-bounds index or slice (or surfaces the title
error), instead of returning the claimed MalformedHeader error. -/
theorem C6_parse_failure_characterisation :
    (∀ p : List Nat, 0x150 ≤ p.length →
      ((valid_utf8 (Cart.title_bytes ((p.drop 0x134).take 0xF)) = true →
        ∃ m, Cart.GameboyProgramMeta.new p = .ok m) ∧
      (valid_utf8 (Cart.title_bytes ((p.drop 0x134).take 0xF)) = false →
        Cart.GameboyProgramMeta.new p = .error .titleNotUtf8))) ∧
    (∀ p : List Nat, p.length < 0x150 →
      ∀ m, Cart.GameboyProgramMeta.new p ≠ .ok m) := by
  constructor
  · exact fun p h => Cart_new_of_min_length h
  · intro p hlen m hok
    simp only [Cart.GameboyProgramMeta.new, except_pure_ok, except_bind_ok,
      Except.ok.injEq] at hok
    obtain ⟨b14B, h1, hok⟩ := hok
    split at hok
    · simp only [except_pure_ok, except_bind_ok, Except.ok.injEq] at hok
      obtain ⟨c1, hc1, c2, hc2, lc, hlc, logo, h4, nbuf, h5, nm, h6, man, h7,
        a1, h8, a2, h9, a3, h10, a4, h11, a5, h12, a6, h13, a7, h14, a8, h15,
        gcs, h16, hrec⟩ := hok
      unfold slice at h16
      split at h16
      · omega
      · exact Except.noConfusion h16
    · simp only [except_pure_ok, except_bind_ok, Except.ok.injEq] at hok
      obtain ⟨lc, hlc, logo, h4, nbuf, h5, nm, h6, man, h7, a1, h8, a2, h9,
        a3, h10, a4, h11, a5, h12, a6, h13, a7, h14, a8, h15, gcs, h16,
        hrec⟩ := hok
      unfold slice at h16
      split at h16
      · omega
      · exact Except.noConfusion h16

/-- C6 counterexample: on the empty input (shorter than 0x150 bytes) the
parser aborts with an out-of-bounds index, which is not the recoverable
title error — the claim's promise of a surfaced MalformedHeader for short
inputs fails. -/
theorem C6_short_input_aborts :
    Cart.GameboyProgramMeta.new [] = .error .outOfBounds ∧
      Crash.outOfBounds ≠ Crash.titleNotUtf8 :=
  ⟨rfl, by decide⟩

/-- A concrete cart.rs header value, used to instantiate C6's short-input
statement. -/
def cart_meta0 : Cart.GameboyProgramMeta where
  name := []
  manufacturer_code := [0, 0, 0, 0]
  licensee_code := [0]
  color_flag := .Undefined
  super_gameboy_flag := .Unsupported
  features_flag := 0
  cartridge_size_indicator := 0
  ram_size_indicator := 0
  region_code := .Japan
  program_version_number := 0
  header_checksum := 0
  global_checksum := 0
  header_checksum_calculated := 0
  global_checksum_calculated := 0
  logo_bitmap := []
  program_size := 0

set_option maxRecDepth 8000 in
/-- Witness for C6's amended theorem: a 0x150-byte all-zero image (its
title prefix is empty, hence valid UTF-8) parses to a header value, and
the empty image (shorter than 0x150) never does. -/
theorem C6_parse_failure_characterisation_witness :
    (∃ m, Cart.GameboyProgramMeta.new (List.replicate 0x150 0) = .ok m) ∧
      Cart.GameboyProgramMeta.new [] ≠ .ok cart_meta0 :=
  ⟨(C6_parse_failure_characterisation.1 (List.replicate 0x150 0)
      (by simp)).1 (by decide),
   C6_parse_failure_characterisation.2 [] (by decide) cart_meta0⟩

/-- A header value parsed from the reference image: logo equal to the
reference bitmap, header checksum stored to match the computed one. -/
def meta_good : Cartridge.GameboyProgramMeta where
  name := []
  manufacturer_code := [0, 0, 0, 0]
  licensee_code := [0]
  color_flag := .Undefined
  super_gameboy_flag := .Unsupported
  features_flag := 0
  cartridge_size_indicator := 0
  ram_size_indicator := 0
  region_code := .Japan
  program_version_number := 0
  header_checksum := 0xE7
  global_checksum := 0
  header_checksum_calculated := 0xE7
  global_checksum_calculated := 0
  nintendo_bitmap := Cartridge.NINTENDO_BITMAP_EXPECTED
  program_size := 0x150

set_option maxRecDepth 8000 in
/-- Witness for C5: at a runnable header value, flipping logo byte 0 to 1
(the reference byte there is 0xCE) kills runnability and leaves the
global-checksum verdict as it was; and a concrete parse carries the
computed checksums of its image. -/
theorem C5_runnable_header_and_logo_only_witness :
    (meta_good.is_runable = ((meta_good.header_checksum ==
        meta_good.header_checksum_calculated) &&
      (meta_good.nintendo_bitmap == Cartridge.NINTENDO_BITMAP_EXPECTED)) ∧
    (Cartridge.set_logo_byte meta_good 0 1).is_runable = false ∧
    (Cartridge.set_logo_byte meta_good 0 1).is_valid_program =
      meta_good.is_valid_program) ∧
    ∃ mm, Cartridge.GameboyProgramMeta.new img_BE = .ok mm ∧
      mm.header_checksum_calculated = calculate_header_checksum img_BE ∧
      mm.global_checksum_calculated = calculate_global_checksum img_BE :=
  ⟨⟨C5_runnable_header_and_logo_only.1 meta_good,
    (C5_runnable_header_and_logo_only.2.2 meta_good 0 1 (by decide) (by decide)).1,
    (C5_runnable_header_and_logo_only.2.2 meta_good 0 1 (by decide) (by decide)).2⟩,
   ⟨_, rfl,
    (C5_runnable_header_and_logo_only.2.1 img_BE _ rfl).1,
    (C5_runnable_header_and_logo_only.2.1 img_BE _ rfl).2.1⟩⟩

end Farore
